import Mathlib

/-!
Verification development for the FutureEarthStimulation repository.

The repository ships a React/TypeScript frontend (under `frontend/src`),
shared API type declarations (`types/simulation.ts`), a backend HTTP client
(`api/backendClient.ts`), and deployment documentation describing the Python
backend.  The backend implementation itself (simulation engine, climate
stress model, land transition model, scenario cache) is not part of the
available sources; those components are modelled here from the specification,
as marked on each definition.  Frontend code and the declared API types are
embedded directly from the sources.

Real-valued quantities are modelled as rationals (`Rat`); JavaScript number
formatting (`toFixed`) is modelled by exact rational rounding following the
ECMA-262 description (sign split off first, ties pick the larger candidate).
-/

namespace FES

/-- Clamp a rational to the unit interval. -/
def clamp01 (x : Rat) : Rat := max 0 (min 1 x)

/-- Stress bucket names used by backend stats (`overall_stress_level` in
`types/simulation.ts`): low, medium, high, severe. -/
inductive StressLevel where
  | low
  | medium
  | high
  | severe
deriving DecidableEq, Repr

/-- Display data returned by the UI helper `getStressLevel` in
`frontend/src/components/Results/StressIndicator.tsx`. -/
structure UIStressInfo where
  level : String
  color : String
  bgColor : String
deriving DecidableEq, Repr

/-- Embedding of `getStressLevel` from
`frontend/src/components/Results/StressIndicator.tsx`. -/
def getStressLevel (value : Rat) : UIStressInfo :=
  if value ≤ 3/10 then
    { level := "LOW", color := "text-stress-low", bgColor := "bg-stress-low" }
  else if value ≤ 6/10 then
    { level := "MEDIUM", color := "text-stress-medium", bgColor := "bg-stress-medium" }
  else if value ≤ 8/10 then
    { level := "HIGH", color := "text-stress-high", bgColor := "bg-stress-high" }
  else
    { level := "SEVERE", color := "text-stress-severe", bgColor := "bg-stress-severe" }

/-- Modelled from the spec: the engine assembles `overall_stress_level` as a
4-bucket classification of `combined_stress_index` (§4.1 step 7: ≤0.3 low,
≤0.6 medium, ≤0.8 high, >0.8 severe).  The backend implementation is not in
the available sources. -/
def overallStressLevel (v : Rat) : StressLevel :=
  if v ≤ 3/10 then .low
  else if v ≤ 6/10 then .medium
  else if v ≤ 8/10 then .high
  else .severe

/-- Badge text of a backend stress bucket, as rendered by the UI. -/
def StressLevel.badge : StressLevel → String
  | .low => "LOW"
  | .medium => "MEDIUM"
  | .high => "HIGH"
  | .severe => "SEVERE"

/-! ### Number formatting and parsing (MetricCard) -/

/-- Character for a single decimal digit. -/
def digitChar (d : Nat) : Char := Char.ofNat (48 + d % 10)

/-- Decimal rendering of a natural number, most significant digit first. -/
def natStr (n : Nat) : String :=
  if _h : n < 10 then String.singleton (digitChar n)
  else natStr (n / 10) ++ String.singleton (digitChar (n % 10))
termination_by n
decreasing_by exact Nat.div_lt_self (by omega) (by omega)

/-- Model of JavaScript `Number.prototype.toFixed(1)` on exact rationals,
following ECMA-262: the sign is split off first, then the numerator of the
tenths is the integer closest to `10 * |q|`, ties picking the larger. -/
def toFixed1 (q : Rat) : String :=
  let sign := if q < 0 then "-" else ""
  let n := (⌊|q| * 10 + 1/2⌋).toNat
  sign ++ natStr (n / 10) ++ "." ++ String.singleton (digitChar (n % 10))

/-- Numeric value of a decimal digit character, if it is one. -/
def digitVal (c : Char) : Option Nat :=
  if 48 ≤ c.toNat ∧ c.toNat ≤ 57 then some (c.toNat - 48) else none

/-- Longest prefix of decimal digits, with the remaining characters. -/
def takeDigits : List Char → List Nat × List Char
  | [] => ([], [])
  | c :: cs =>
    match digitVal c with
    | some d => ((takeDigits cs).1.cons d, (takeDigits cs).2)
    | none => ([], c :: cs)

/-- Value of a digit sequence read in base 10. -/
def digitsVal (ds : List Nat) : Nat := ds.foldl (fun acc d => acc * 10 + d) 0

/-- Model of JavaScript `parseFloat` on the decimal literals this UI produces:
optional leading spaces, optional sign, integer digits, optional fractional
part; any trailing characters are ignored; `none` plays the role of `NaN`.
(Exponent and `Infinity` forms do not occur in this frontend and are not
modelled.) -/
def jsParseFloat (s : String) : Option Rat :=
  let cs := s.data.dropWhile (fun c => c = ' ')
  let signed : Bool × List Char :=
    match cs with
    | c :: rest =>
      if c = '-' then (true, rest)
      else if c = '+' then (false, rest)
      else (false, cs)
    | [] => (false, [])
  let ipRest := takeDigits signed.2
  let mkNum : Rat → Option Rat := fun x =>
    some ((if signed.1 then (-1 : Rat) else 1) * x)
  match ipRest.2 with
  | c :: rest =>
    if c = '.' then
      let fp := (takeDigits rest).1
      if ipRest.1.isEmpty ∧ fp.isEmpty then none
      else mkNum ((digitsVal ipRest.1 : Rat) + (digitsVal fp : Rat) / 10 ^ fp.length)
    else if ipRest.1.isEmpty then none
    else mkNum (digitsVal ipRest.1 : Rat)
  | [] =>
    if ipRest.1.isEmpty then none
    else mkNum (digitsVal ipRest.1 : Rat)

/-- Trend prop of `MetricCard` (`frontend/src/components/Results/MetricCard.tsx`). -/
inductive Trend where
  | positive
  | negative
  | neutral
deriving DecidableEq, Repr

/-- Value prop of `MetricCard`: `value: string | number`. -/
inductive MetricValue where
  | num (q : Rat)
  | str (s : String)
deriving DecidableEq, Repr

/-- Embedding of `const numValue = typeof value === 'number' ? value :
parseFloat(value)` in `MetricCard.tsx`; `none` plays the role of `NaN`. -/
def metricNumValue : MetricValue → Option Rat
  | .num q => some q
  | .str s => jsParseFloat s

/-- Embedding of the `displayValue` computation in `MetricCard.tsx`:
`!isNaN(numValue) ? (numValue > 0 && trend !== 'neutral' ? plus-prefixed
toFixed(1) : toFixed(1)) : value`. -/
def metricDisplayValue (value : MetricValue) (trend : Trend) : String :=
  match metricNumValue value with
  | some q =>
    if 0 < q ∧ trend ≠ Trend.neutral then "+" ++ toFixed1 q else toFixed1 q
  | none =>
    match value with
    | .num q => toFixed1 q
    | .str s => s

/-- Statement of the claimed display behaviour, written from the claim: a
numeric value (given as a number, or as a string that parses as a number) is
shown as the value formatted to one decimal place, with a plus sign exactly
when it is positive and the trend is not neutral; an unparsable string is
shown verbatim. -/
def claimedDisplay (value : MetricValue) (trend : Trend) : String :=
  match value with
  | .num q => (if 0 < q ∧ trend ≠ Trend.neutral then "+" else "") ++ toFixed1 q
  | .str s =>
    match jsParseFloat s with
    | some q => (if 0 < q ∧ trend ≠ Trend.neutral then "+" else "") ++ toFixed1 q
    | none => s

/-- A string shows exactly one decimal place: it is some dot-free prefix, a
dot, and exactly one digit. -/
def oneDecimalPlace (s : String) : Prop :=
  ∃ pre d, d < 10 ∧ s = pre ++ "." ++ String.singleton (digitChar d) ∧
    ∀ c ∈ pre.data, c ≠ Char.ofNat 46

/-! ### Parameter constraints and request types (`types/simulation.ts`) -/

/-- Range entry of `PARAMETER_CONSTRAINTS` in `types/simulation.ts`. -/
structure ParamRange where
  min : Rat
  max : Rat
  default : Rat
  step : Rat
deriving DecidableEq, Repr

/-- Field layout of `PARAMETER_CONSTRAINTS`. -/
structure ParameterConstraints where
  year : ParamRange
  rainfall_delta : ParamRange
  temperature_delta : ParamRange
  urban_growth : ParamRange
deriving DecidableEq, Repr

/-- Embedding of `PARAMETER_CONSTRAINTS` from `types/simulation.ts`. -/
def PARAMETER_CONSTRAINTS : ParameterConstraints :=
  { year := ⟨2025, 2100, 2050, 5⟩
    rainfall_delta := ⟨-50, 30, 0, 5⟩
    temperature_delta := ⟨-2, 5, 0, 1/2⟩
    urban_growth := ⟨0, 100, 0, 10⟩ }

/-- Embedding of `SimulationRequest` from `types/simulation.ts`. -/
structure SimulationRequest where
  region : String
  year : Int
  rainfall_delta : Rat
  temperature_delta : Rat
  urban_growth : Rat
deriving DecidableEq, Repr

/-- Bounding box `[minLng, minLat, maxLng, maxLat]` of a region
(`Region.bbox` in `types/simulation.ts`). -/
structure BBox where
  minLng : Rat
  minLat : Rat
  maxLng : Rat
  maxLat : Rat
deriving DecidableEq, Repr

/-- Embedding of `Region` from `types/simulation.ts`. -/
structure Region where
  id : String
  name : String
  bbox : BBox
  description : String
deriving DecidableEq, Repr

/-- Modelled from the spec: region identifier normalization (lowercasing and
stripping spaces/punctuation, §2); the backend `utils/regions.py` is not in
the available sources. -/
def normalizeRegionId (s : String) : String :=
  String.mk ((s.data.map Char.toLower).filter (fun c => c.isAlphanum))

/-- Modelled from the spec: the region catalog rows documented in
`DEPLOY_NOW.md` (Available Regions table); the backend `utils/regions.py` is
not in the available sources. -/
def regionCatalog : List Region :=
  [ ⟨"tamilnadu", "Tamil Nadu", ⟨77, 8, 161/2, 27/2⟩, "Tamil Nadu state, India"⟩
  , ⟨"karnataka", "Karnataka", ⟨74, 23/2, 157/2, 37/2⟩, "Karnataka state, India"⟩
  , ⟨"kerala", "Kerala", ⟨374/5, 41/5, 387/5, 64/5⟩, "Kerala state, India"⟩
  , ⟨"india", "India", ⟨68, 6, 97, 36⟩, "Full country"⟩
  , ⟨"test", "test", ⟨3923/50, 2009/100, 3973/50, 2109/100⟩, "Test region"⟩ ]

/-- Catalog lookup of a user-supplied region identifier after normalization. -/
def findRegion (s : String) : Option Region :=
  regionCatalog.find? (fun r => decide (r.id = normalizeRegionId s))

/-- Error taxonomy of the simulation engine (spec §7): out-of-range field or
unrecognized region identifier. -/
inductive SimError where
  | invalidParameter (field : String) (value : Rat) (lo hi : Rat)
  | unknownRegion (id : String)
deriving DecidableEq, Repr

/-- Modelled from the spec: range validation of each numeric field against
its closed range (§4.1 step 2), using the constraints shared with the
frontend; the backend `api/models.py` is not in the available sources.
Returns the first violation, if any. -/
def validateParams (req : SimulationRequest) : Option SimError :=
  let c := PARAMETER_CONSTRAINTS
  if ¬ (c.year.min ≤ (req.year : Rat) ∧ (req.year : Rat) ≤ c.year.max) then
    some (.invalidParameter "year" (req.year : Rat) c.year.min c.year.max)
  else if ¬ (c.rainfall_delta.min ≤ req.rainfall_delta ∧
      req.rainfall_delta ≤ c.rainfall_delta.max) then
    some (.invalidParameter "rainfall_delta" req.rainfall_delta
      c.rainfall_delta.min c.rainfall_delta.max)
  else if ¬ (c.temperature_delta.min ≤ req.temperature_delta ∧
      req.temperature_delta ≤ c.temperature_delta.max) then
    some (.invalidParameter "temperature_delta" req.temperature_delta
      c.temperature_delta.min c.temperature_delta.max)
  else if ¬ (c.urban_growth.min ≤ req.urban_growth ∧
      req.urban_growth ≤ c.urban_growth.max) then
    some (.invalidParameter "urban_growth" req.urban_growth
      c.urban_growth.min c.urban_growth.max)
  else
    none

/-! ### Baseline data (spec §2, §3) -/

/-- Origin of baseline data (`data_source` in `types/simulation.ts`). -/
inductive DataSource where
  | real
  | mock
deriving DecidableEq, Repr

/-- Land-cover fraction table with the seven categories of the spec data
model (§3, `land_cover_fractions`). -/
@[ext]
structure LandCoverFractions where
  crops : Rat
  trees : Rat
  grass : Rat
  shrub : Rat
  bare : Rat
  urban : Rat
  water : Rat
deriving DecidableEq, Repr

/-- Sum of the seven land-cover fractions. -/
def sumF (f : LandCoverFractions) : Rat :=
  f.crops + f.trees + f.grass + f.shrub + f.bare + f.urban + f.water

/-- All seven land-cover fractions are nonnegative. -/
def NonnegF (f : LandCoverFractions) : Prop :=
  0 ≤ f.crops ∧ 0 ≤ f.trees ∧ 0 ≤ f.grass ∧ 0 ≤ f.shrub ∧
    0 ≤ f.bare ∧ 0 ≤ f.urban ∧ 0 ≤ f.water

instance (f : LandCoverFractions) : Decidable (NonnegF f) := by
  unfold NonnegF; infer_instance

/-- Baseline snapshot of a region (spec §3, `BaselineSnapshot`). -/
structure BaselineSnapshot where
  region_id : String
  baseline_year : Int
  land_cover_fractions : LandCoverFractions
  mean_rainfall_mm : Rat
  mean_temperature_c : Rat
  mean_ndvi : Rat
  source : DataSource
deriving DecidableEq, Repr

/-- Fixed baseline reference year (spec §3; `DEPLOY_NOW.md`). -/
def BASELINE_YEAR : Int := 2020

/-- The Baseline Data Provider contract `get_baseline(region, year) ->
BaselineSnapshot | raises DataUnavailable` (spec §2); `none` plays the role of
`DataUnavailable`. -/
def Provider : Type := String → Option BaselineSnapshot

/-- Modelled from the spec: fixed synthetic land-cover profile of the
deterministic fallback baseline; the backend `gee/data_loader.py` is not in
the available sources.  The fractions sum to 1. -/
def syntheticProfile : LandCoverFractions :=
  ⟨3/10, 1/4, 3/20, 1/10, 1/10, 1/20, 1/20⟩

/-- Modelled from the spec: deterministic synthetic baseline derived purely
from the region's bounding box and catalog metadata (§4.1 step 5); the
backend `gee/data_loader.py` is not in the available sources. -/
def syntheticBaseline (r : Region) : BaselineSnapshot :=
  { region_id := r.id
    baseline_year := BASELINE_YEAR
    land_cover_fractions := syntheticProfile
    mean_rainfall_mm := 600 + 10 * (r.bbox.maxLat + r.bbox.minLat)
    mean_temperature_c := 25 + (r.bbox.maxLng - r.bbox.minLng) / 10
    mean_ndvi := clamp01 ((r.bbox.maxLat - r.bbox.minLat) / 30 + 2/5)
    source := .mock }

/-- Flat-earth area of a region from its bounding box extents (spec §4.3
step 4), with 111 km per degree. -/
def regionArea (r : Region) : Rat :=
  (r.bbox.maxLng - r.bbox.minLng) * (r.bbox.maxLat - r.bbox.minLat) * 12321

/-! ### Climate stress model (spec §4.2) -/

/-- Embedding of `ClimateStress` from `types/simulation.ts`. -/
structure ClimateStress where
  combined_stress_index : Rat
  rainfall_stress : Rat
  temperature_stress : Rat
  vegetation_stress : Rat
deriving DecidableEq, Repr

/-- Modelled from the spec: the climate stress model (§4.2) — asymmetric
rainfall response (a deficit raises stress at slope 1/50, a surplus at slope
1/100 before clamping), temperature stress linear up to the +5 °C bound,
vegetation stress coupling the two deltas multiplicatively with low baseline
NDVI, and a fixed-weight combination (weights 2/5, 3/10, 3/10); the backend
`ml/climate_stress.py` is not in the available sources. -/
def computeStress (b : BaselineSnapshot) (rainfall_delta temperature_delta : Rat) :
    ClimateStress :=
  let rs := clamp01 (if rainfall_delta ≤ 0 then -rainfall_delta / 50 else -rainfall_delta / 100)
  let ts := clamp01 (temperature_delta / 5)
  let vs := clamp01 ((1 - b.mean_ndvi) * (rs + ts) / 2)
  { combined_stress_index := clamp01 (2/5 * rs + 3/10 * ts + 3/10 * vs)
    rainfall_stress := rs
    temperature_stress := ts
    vegetation_stress := vs }

/-! ### Land transition model (spec §4.3) -/

/-- Take `amt` from a donor holding `avail`: never negative, never more than
the donor has available. -/
def clampTake (avail amt : Rat) : Rat := max 0 (min avail amt)

/-- The seven source-to-destination movements of the transition policy
(stress-driven degradation and urban expansion, spec §4.3). -/
structure TransitionMoves where
  tShrub : Rat
  tGrass : Rat
  cBare : Rat
  cGrass : Rat
  cUrban : Rat
  gUrban : Rat
  tUrban : Rat
deriving DecidableEq, Repr

/-- Modelled from the spec: movement amounts of the land transition policy
(§4.3 steps 1–2) — degradation moves proportional to the combined stress
index and clamped by the donor, then urban expansion drawing
`urban_growth_pct` of the total area from crops, then grass, then trees, each
donor depleted before the next; the backend `ml/land_transition.py` is not in
the available sources. -/
def computeMoves (f : LandCoverFractions) (cs u : Rat) : TransitionMoves :=
  let tShrub := clampTake f.trees (f.trees * (3/20) * cs)
  let tGrass := clampTake (f.trees - tShrub) ((f.trees - tShrub) * (1/10) * cs)
  let cBare := clampTake f.crops (f.crops * (1/10) * cs)
  let cGrass := clampTake (f.crops - cBare) ((f.crops - cBare) * (1/20) * cs)
  let demand := max 0 (u / 100 * sumF f)
  let cUrban := clampTake (f.crops - cBare - cGrass) demand
  let gUrban := clampTake (f.grass + tGrass + cGrass) (demand - cUrban)
  let tUrban := clampTake (f.trees - tShrub - tGrass) (demand - cUrban - gUrban)
  ⟨tShrub, tGrass, cBare, cGrass, cUrban, gUrban, tUrban⟩

/-- Apply the seven movements to a fraction table: donors lose, recipients
gain, water is untouched. -/
def applyMoves (f : LandCoverFractions) (m : TransitionMoves) : LandCoverFractions :=
  { crops := f.crops - m.cBare - m.cGrass - m.cUrban
    trees := f.trees - m.tShrub - m.tGrass - m.tUrban
    grass := f.grass + m.tGrass + m.cGrass - m.gUrban
    shrub := f.shrub + m.tShrub
    bare := f.bare + m.cBare
    urban := f.urban + m.cUrban + m.gUrban + m.tUrban
    water := f.water }

/-- Renormalize a fraction table to total 1 (spec §4.3 step 3); a zero total
is left unchanged. -/
def renormalize (g : LandCoverFractions) : LandCoverFractions :=
  let s := sumF g
  if s = 0 then g
  else
    { crops := g.crops / s, trees := g.trees / s, grass := g.grass / s
      shrub := g.shrub / s, bare := g.bare / s, urban := g.urban / s
      water := g.water / s }

/-- Nonzero movements as a named transition mapping (spec §4.3 step 4). -/
def movesList (m : TransitionMoves) : List (String × Rat) :=
  (if m.tShrub ≠ 0 then [("trees_to_shrub", m.tShrub)] else []) ++
  (if m.tGrass ≠ 0 then [("trees_to_grass", m.tGrass)] else []) ++
  (if m.cBare ≠ 0 then [("crops_to_bare", m.cBare)] else []) ++
  (if m.cGrass ≠ 0 then [("crops_to_grass", m.cGrass)] else []) ++
  (if m.cUrban ≠ 0 then [("crops_to_urban", m.cUrban)] else []) ++
  (if m.gUrban ≠ 0 then [("grass_to_urban", m.gUrban)] else []) ++
  (if m.tUrban ≠ 0 then [("trees_to_urban", m.tUrban)] else [])

/-- Embedding of `LandTransitions` from `types/simulation.ts`, with the
projected fraction table of the spec data model (§3). -/
structure LandTransitionResult where
  projected_fractions : LandCoverFractions
  transitions : List (String × Rat)
  degraded_area_km2 : Rat
  urbanized_area_km2 : Rat
deriving DecidableEq, Repr

/-- Modelled from the spec: the land transition model `compute_transitions`
(§4.3) — movements, application, renormalization, and derived areas
(degraded area counts `trees_to_*` and `crops_to_bare`, urbanized area counts
every movement into urban); the backend `ml/land_transition.py` is not in the
available sources. -/
def computeTransitions (f : LandCoverFractions) (sv : ClimateStress)
    (urban_growth_pct area_km2 : Rat) : LandTransitionResult :=
  let m := computeMoves f sv.combined_stress_index urban_growth_pct
  { projected_fractions := renormalize (applyMoves f m)
    transitions := movesList m
    degraded_area_km2 := (m.tShrub + m.tGrass + m.cBare) * area_km2
    urbanized_area_km2 := (m.cUrban + m.gUrban + m.tUrban) * area_km2 }

/-! ### Scenario results (`types/simulation.ts`) -/

/-- Embedding of `SimulationStats` from `types/simulation.ts`.  Timestamps
and durations are modelled as rationals. -/
structure SimulationStats where
  urban_gain_pct : Rat
  vegetation_loss_pct : Rat
  crop_stress_index : Rat
  trees_change_pct : Rat
  crops_change_pct : Rat
  overall_stress_level : StressLevel
  rainfall_stress_index : Rat
  temperature_stress_index : Rat
  vegetation_stress_index : Rat
  combined_stress_index : Rat
  cached : Bool
  computation_time_seconds : Rat
deriving DecidableEq, Repr

/-- Embedding of `SimulationMetadata` from `types/simulation.ts`
(`generated_at` modelled as a rational timestamp). -/
structure SimulationMetadata where
  region : String
  baseline_year : Int
  target_year : Int
  generated_at : Rat
deriving DecidableEq, Repr

/-- The `results` payload of `SimulationResponse` in `types/simulation.ts`. -/
structure SimulationResults where
  climate_stress : ClimateStress
  land_transitions : LandTransitionResult
deriving DecidableEq, Repr

/-- Canonical scenario identity: the normalized parameter tuple the spec's
deterministic digest is computed over (§4.1 step 3).  The digest is modelled
by the canonical tuple itself, which is injective where a cryptographic hash
is collision-free. -/
structure ScenarioKey where
  region_id : String
  target_year : Int
  rainfall_delta : Rat
  temperature_delta : Rat
  urban_growth : Rat
deriving DecidableEq, Repr

/-- Embedding of `SimulationResponse` from `types/simulation.ts` (the spec's
`ScenarioResult`). -/
structure SimulationResponse where
  scenario_id : ScenarioKey
  metadata : SimulationMetadata
  results : SimulationResults
  stats : SimulationStats
  tile_url : String
  data_source : DataSource
deriving DecidableEq, Repr

/-- Modelled from the spec: result assembly on a cache miss — baseline fetch
with deterministic synthetic fallback (§4.1 step 5), the two models (§4.1
step 6), stats and bucketing (§4.1 step 7); the backend
`ml/simulation_engine.py` is not in the available sources. -/
def freshResult (prov : Provider) (r : Region) (k : ScenarioKey)
    (tGen tComp : Rat) : SimulationResponse :=
  let b := match prov r.id with
    | some b => b
    | none => syntheticBaseline r
  let sv := computeStress b k.rainfall_delta k.temperature_delta
  let land := computeTransitions b.land_cover_fractions sv k.urban_growth (regionArea r)
  let f := b.land_cover_fractions
  let p := land.projected_fractions
  { scenario_id := k
    metadata := ⟨r.name, BASELINE_YEAR, k.target_year, tGen⟩
    results := ⟨sv, land⟩
    stats :=
      { urban_gain_pct := (p.urban - f.urban) * 100
        vegetation_loss_pct := max 0 ((f.trees + f.grass + f.shrub) -
          (p.trees + p.grass + p.shrub)) * 100
        crop_stress_index := sv.combined_stress_index
        trees_change_pct := (p.trees - f.trees) * 100
        crops_change_pct := (p.crops - f.crops) * 100
        overall_stress_level := overallStressLevel sv.combined_stress_index
        rainfall_stress_index := sv.rainfall_stress
        temperature_stress_index := sv.temperature_stress
        vegetation_stress_index := sv.vegetation_stress
        combined_stress_index := sv.combined_stress_index
        cached := false
        computation_time_seconds := tComp }
    tile_url := "/tiles/" ++ r.id
    data_source := b.source }

/-! ### Scenario cache (spec §4.4)

The cache is modelled from the spec as a recency-ordered association list,
most recently used first: a hit moves the entry to the front, an insert at
capacity drops the last (least recently used) entry.  The backend
`utils/cache.py` is not in the available sources.  TTL expiry is a time
concern not exercised by any property below; the TTL constant itself is kept
for the stats record. -/

/-- Cache state: recency-ordered entries, most recently used first. -/
abbrev Cache : Type := List (ScenarioKey × SimulationResponse)

/-- Cache capacity (`CACHE_MAX_SIZE` in `DEPLOY_NOW.md`). -/
def CACHE_MAX_SIZE : Nat := 100

/-- Cache entry lifetime in hours (`CACHE_TTL_HOURS` in `DEPLOY_NOW.md`). -/
def CACHE_TTL_HOURS : Nat := 24

/-- Pure lookup, without the recency side effect. -/
def cacheFind (k : ScenarioKey) (c : Cache) : Option SimulationResponse :=
  (List.find? (fun e => decide (e.1 = k)) c).map (fun e => e.2)

/-- Modelled from the spec: `get(key)` — a hit returns the stored result and
refreshes the entry's recency (§4.4). -/
def cacheGet (k : ScenarioKey) (c : Cache) : Option SimulationResponse × Cache :=
  match List.find? (fun e => decide (e.1 = k)) c with
  | none => (none, c)
  | some e => (some e.2, e :: List.eraseP (fun x => decide (x.1 = k)) c)

/-- Cache state after a `get`, keeping only the recency effect. -/
def cacheTouch (k : ScenarioKey) (c : Cache) : Cache := (cacheGet k c).2

/-- Modelled from the spec: `put(key, value)` — replace any entry with the
same key, evict the least-recently-used entry when at capacity, insert as
most recent (§4.4). -/
def cachePut (k : ScenarioKey) (v : SimulationResponse) (c : Cache) : Cache :=
  let c1 := List.eraseP (fun e => decide (e.1 = k)) c
  let c2 := if CACHE_MAX_SIZE ≤ c1.length then c1.dropLast else c1
  (k, v) :: c2

/-- Number of entries held by the cache. -/
def entriesCount (c : Cache) : Nat := List.length c

/-- Keys currently held by the cache, in recency order. -/
def keysOf (c : Cache) : List ScenarioKey := List.map (fun e => e.1) c

/-- Modelled from the spec: the simulation engine `simulate` (§4.1) —
normalize the region, validate ranges, compute the scenario key, consult the
cache, and on a miss compute and store a fresh result; the backend
`ml/simulation_engine.py` is not in the available sources.  `tGen` and
`tComp` model the wall-clock timestamp and the measured computation time of
this particular call. -/
def simulate (prov : Provider) (req : SimulationRequest) (c : Cache)
    (tGen tComp : Rat) : Except SimError (SimulationResponse × Cache) :=
  match findRegion req.region with
  | none => .error (.unknownRegion req.region)
  | some r =>
    match validateParams req with
    | some e => .error e
    | none =>
      let k : ScenarioKey :=
        ⟨r.id, req.year, req.rainfall_delta, req.temperature_delta, req.urban_growth⟩
      match cacheGet k c with
      | (some res, c1) =>
        .ok ({ res with
                stats := { res.stats with
                             cached := true, computation_time_seconds := tComp } }, c1)
      | (none, _) =>
        let res := freshResult prov r k tGen tComp
        .ok (res, cachePut k res c)

/-! ### Result payload (determinism) -/

/-- The stats fields other than `cached` and `computation_time_seconds`. -/
structure StatsCore where
  urban_gain_pct : Rat
  vegetation_loss_pct : Rat
  crop_stress_index : Rat
  trees_change_pct : Rat
  crops_change_pct : Rat
  overall_stress_level : StressLevel
  rainfall_stress_index : Rat
  temperature_stress_index : Rat
  vegetation_stress_index : Rat
  combined_stress_index : Rat
deriving DecidableEq, Repr

/-- Project the stats onto the fields other than `cached` and
`computation_time_seconds`. -/
def statsCore (s : SimulationStats) : StatsCore :=
  ⟨s.urban_gain_pct, s.vegetation_loss_pct, s.crop_stress_index,
    s.trees_change_pct, s.crops_change_pct, s.overall_stress_level,
    s.rainfall_stress_index, s.temperature_stress_index,
    s.vegetation_stress_index, s.combined_stress_index⟩

/-- The parts of a result the determinism property ranges over: scenario id,
the results payload, and every stats field except `cached` and
`computation_time_seconds`. -/
structure Payload where
  scenario_id : ScenarioKey
  results : SimulationResults
  stats : StatsCore
deriving DecidableEq, Repr

/-- Deterministic part of a result. -/
def payload (res : SimulationResponse) : Payload :=
  ⟨res.scenario_id, res.results, statsCore res.stats⟩

/-- Deterministic part of a `simulate` outcome. -/
def simPayload (x : Except SimError (SimulationResponse × Cache)) :
    Except SimError Payload :=
  Except.map (fun rc => payload rc.1) x

/-- Cache states reachable by runs of the engine against a fixed provider,
starting from the empty cache (fresh process). -/
inductive Reachable (prov : Provider) : Cache → Prop where
  | empty : Reachable prov []
  | step (req : SimulationRequest) (c : Cache) (tGen tComp : Rat)
      (res : SimulationResponse) (c2 : Cache) :
      Reachable prov c → simulate prov req c tGen tComp = .ok (res, c2) →
      Reachable prov c2

/-- A provider whose every fetch fails with `DataUnavailable`. -/
def failProvider : Provider := fun _ => none

/-- A provider that always answers with the synthetic baseline. -/
def syntheticProvider : Provider := fun s => (findRegion s).map syntheticBaseline

/-! ### Backend HTTP client (`api/backendClient.ts`) -/

/-- Abstraction of a `fetch` response to `POST /simulate`: the `ok` flag, the
numeric status code, and the parsed JSON body — `detail`, as serialized into
the 422 error message, and the success payload. -/
structure HttpResponse where
  ok : Bool
  status : Nat
  detail : String
  body : SimulationResponse

/-- Embedding of `BackendClient.simulate` from `api/backendClient.ts`: a
non-ok response throws (`Except.error` with the thrown message), a 422 embeds
the parsed validation detail, any other failure embeds the numeric status
code; an ok response resolves to the parsed body. -/
def clientSimulate (r : HttpResponse) : Except String SimulationResponse :=
  if r.ok = false then
    if r.status = 422 then
      .error ("Validation error: " ++ r.detail)
    else
      .error ("Simulation failed: " ++ toString r.status)
  else
    .ok r.body

/-! ### Cache endpoints (`api/backendClient.ts`, `types/simulation.ts`) -/

/-- Embedding of `CacheStats` from `types/simulation.ts` (the response of
`GET /cache/stats`). -/
structure CacheStats where
  entries : Nat
  max_size : Nat
  ttl_hours : Nat
  scenarios : List ScenarioKey
deriving DecidableEq, Repr

/-- Field names of the `CacheStats` interface, in declaration order
(`types/simulation.ts`). -/
def cacheStatsFields : List String := ["entries", "max_size", "ttl_hours", "scenarios"]

/-- Embedding of the declared response type of `BackendClient.clearCache`
(`api/backendClient.ts`, `POST /cache/clear`). -/
structure ClearCacheResponse where
  status : String
  message : String
  cleared_count : Nat
deriving DecidableEq, Repr

/-- Field names of the `clearCache` response type, in declaration order
(`api/backendClient.ts`). -/
def clearCacheResponseFields : List String := ["status", "message", "cleared_count"]

/-- Modelled from the spec: the cache `stats()` operation (§4.4 contract),
shaped by the declared `CacheStats` interface; the backend `utils/cache.py`
is not in the available sources. -/
def cacheStats (c : Cache) : CacheStats :=
  { entries := entriesCount c
    max_size := CACHE_MAX_SIZE
    ttl_hours := CACHE_TTL_HOURS
    scenarios := keysOf c }

/-- Modelled from the spec: the cache `clear()` operation (§4.4 contract),
shaped by the declared `clearCache` response type; the backend
`utils/cache.py` is not in the available sources. -/
def cacheClear (c : Cache) : ClearCacheResponse × Cache :=
  ({ status := "success"
     message := "Cache cleared"
     cleared_count := entriesCount c }, [])

/-- A fixed concrete scenario result, used to exercise cache behaviour on
concrete inputs. -/
def dummyResponse : SimulationResponse :=
  freshResult failProvider ⟨"test", "test", ⟨0, 0, 1, 1⟩, "d"⟩ ⟨"test", 2050, 0, 0, 0⟩ 0 0

/-! ## Theorems -/

theorem clampTake_nonneg (a b : Rat) : 0 ≤ clampTake a b := le_max_left 0 _

theorem clampTake_le (a b : Rat) (h : 0 ≤ a) : clampTake a b ≤ a :=
  max_le h (min_le_left a b)

@[simp]
theorem clampTake_zero (a : Rat) : clampTake a 0 = 0 := by
  unfold clampTake
  rcases le_total a 0 with h | h
  · rw [min_eq_left h]; exact max_eq_left h
  · rw [min_eq_right h]; exact max_self 0

/-- C2: for every combined stress index value, the classification yields low
iff the value is at most 0.3, medium iff it is in (0.3, 0.6], high iff it is
in (0.6, 0.8], and severe iff it exceeds 0.8 — a characterization that makes
the four buckets exhaustive and mutually exclusive — and the engine's
bucketing agrees with the UI's `getStressLevel` bucketing. -/
theorem stress_bucketing_agrees (v : Rat) :
    (overallStressLevel v = .low ↔ v ≤ 3/10) ∧
    (overallStressLevel v = .medium ↔ 3/10 < v ∧ v ≤ 6/10) ∧
    (overallStressLevel v = .high ↔ 6/10 < v ∧ v ≤ 8/10) ∧
    (overallStressLevel v = .severe ↔ 8/10 < v) ∧
    (getStressLevel v).level = (overallStressLevel v).badge := by
  unfold overallStressLevel getStressLevel
  split_ifs with h1 h2 h3 <;>
    refine ⟨?_, ?_, ?_, ?_, ?_⟩ <;>
    simp_all [StressLevel.badge] <;>
    intros <;> linarith

/-- C8 counterexample: the declared `CacheStats` interface does not have
exactly the fields `entries`, `max_size`, `ttl`; it declares `ttl_hours` and
a fourth field `scenarios`. -/
theorem cache_stats_fields_counterexample :
    cacheStatsFields ≠ ["entries", "max_size", "ttl"] := by decide

/-- C8 (amended): `clear()` empties the cache and reports the number of
cleared entries in the `cleared_count` field of its response, whose declared
fields are `status`, `message`, `cleared_count`; `stats()` returns a record
with exactly the declared fields `entries`, `max_size`, `ttl_hours`,
`scenarios`, reporting the entry count, the capacity, and the TTL. -/
theorem cache_clear_stats_contract (c : Cache) :
    (cacheClear c).1.cleared_count = entriesCount c ∧
    entriesCount (cacheClear c).2 = 0 ∧
    (cacheStats c).entries = entriesCount c ∧
    (cacheStats c).max_size = CACHE_MAX_SIZE ∧
    (cacheStats c).ttl_hours = CACHE_TTL_HOURS ∧
    cacheStatsFields = ["entries", "max_size", "ttl_hours", "scenarios"] ∧
    clearCacheResponseFields = ["status", "message", "cleared_count"] :=
  ⟨rfl, rfl, rfl, rfl, rfl, rfl, rfl⟩

/-- C9: a non-ok response to `POST /simulate` makes `BackendClient.simulate`
throw — with the parsed validation detail embedded when the status is exactly
422, and the numeric status code otherwise — and an ok response resolves to
the parsed JSON body. -/
theorem client_simulate_error_handling (r : HttpResponse) :
    (r.ok = false →
      clientSimulate r = .error (if r.status = 422
        then "Validation error: " ++ r.detail
        else "Simulation failed: " ++ toString r.status)) ∧
    (r.ok = true → clientSimulate r = .ok r.body) := by
  unfold clientSimulate
  constructor
  · intro h
    rw [h]
    simp only [if_true]
    split_ifs <;> rfl
  · intro h
    rw [h]
    rfl

/-- Witness for C9 at concrete responses: a 422, a 500, and an ok response. -/
theorem client_simulate_error_handling_witness :
    clientSimulate ⟨false, 422, "field out of range", dummyResponse⟩ =
      .error "Validation error: field out of range" ∧
    clientSimulate ⟨false, 500, "field out of range", dummyResponse⟩ =
      .error "Simulation failed: 500" ∧
    clientSimulate ⟨true, 200, "", dummyResponse⟩ = .ok dummyResponse := by
  refine ⟨?_, ?_, ?_⟩
  · have h := (client_simulate_error_handling
      ⟨false, 422, "field out of range", dummyResponse⟩).1 rfl
    simpa using h
  · have h := (client_simulate_error_handling
      ⟨false, 500, "field out of range", dummyResponse⟩).1 rfl
    simpa using h
  · exact (client_simulate_error_handling ⟨true, 200, "", dummyResponse⟩).2 rfl

theorem digitChar_ne_dot (d : Nat) : digitChar d ≠ Char.ofNat 46 := by
  unfold digitChar
  have h : d % 10 < 10 := Nat.mod_lt _ (by norm_num)
  set m := d % 10 with hm
  interval_cases m <;> decide

theorem natStr_no_dot (n : Nat) : ∀ c ∈ (natStr n).data, c ≠ Char.ofNat 46 := by
  induction n using Nat.strong_induction_on with
  | _ n ih =>
    rw [natStr]
    split_ifs with h
    · intro c hc
      have hc2 : c = digitChar n := by simpa [String.singleton] using hc
      rw [hc2]; exact digitChar_ne_dot n
    · intro c hc
      rw [String.data_append] at hc
      rcases List.mem_append.1 hc with h2 | h2
      · exact ih (n / 10) (Nat.div_lt_self (by omega) (by omega)) c h2
      · have hc2 : c = digitChar (n % 10) := by simpa [String.singleton] using h2
        rw [hc2]; exact digitChar_ne_dot (n % 10)

theorem sign_natStr_oneDecimal (sign : String)
    (hsign : ∀ c ∈ sign.data, c ≠ Char.ofNat 46) (n : Nat) :
    oneDecimalPlace (sign ++ natStr (n / 10) ++ "." ++
      String.singleton (digitChar (n % 10))) := by
  refine ⟨sign ++ natStr (n / 10), n % 10, Nat.mod_lt _ (by norm_num), rfl, ?_⟩
  intro c hc
  rw [String.data_append] at hc
  rcases List.mem_append.1 hc with h | h
  · exact hsign c h
  · exact natStr_no_dot (n / 10) c h

theorem toFixed1_oneDecimalPlace (q : Rat) : oneDecimalPlace (toFixed1 q) := by
  have h : toFixed1 q = (if q < 0 then "-" else "") ++
      natStr ((⌊|q| * 10 + 1/2⌋).toNat / 10) ++ "." ++
      String.singleton (digitChar ((⌊|q| * 10 + 1/2⌋).toNat % 10)) := rfl
  rw [h]
  apply sign_natStr_oneDecimal
  intro c hc
  split_ifs at hc
  · have hc2 : c = Char.ofNat 45 := by simpa using hc
    rw [hc2]; decide
  · simp at hc

/-- C10: the `MetricCard` display equals the claimed behaviour — a numeric
value (a number, or a string that parses as a number) is shown formatted to
one decimal place with a plus prefix exactly when it is positive and the
trend is not neutral, and a string that does not parse is shown verbatim —
and the formatted number always shows exactly one decimal place. -/
theorem metric_card_display :
    (∀ (value : MetricValue) (trend : Trend),
      metricDisplayValue value trend = claimedDisplay value trend) ∧
    (∀ q : Rat, oneDecimalPlace (toFixed1 q)) := by
  constructor
  · intro value trend
    cases value with
    | num q =>
      simp only [metricDisplayValue, claimedDisplay, metricNumValue]
      split_ifs <;> rfl
    | str s =>
      simp only [metricDisplayValue, claimedDisplay, metricNumValue]
      cases h : jsParseFloat s with
      | none => simp [h]
      | some q =>
        simp only [h]
        split_ifs <;> rfl
  · exact toFixed1_oneDecimalPlace

theorem computeMoves_zero (f : LandCoverFractions) (cs u : Rat)
    (hcs : cs = 0) (hu : u = 0) : computeMoves f cs u = ⟨0, 0, 0, 0, 0, 0, 0⟩ := by
  subst hcs hu
  unfold computeMoves
  simp

theorem applyMoves_zero (f : LandCoverFractions) :
    applyMoves f ⟨0, 0, 0, 0, 0, 0, 0⟩ = f := by
  unfold applyMoves; ext <;> simp

theorem renormalize_sum_one (g : LandCoverFractions) (h : sumF g = 1) :
    renormalize g = g := by
  unfold renormalize
  simp [h]

theorem movesList_zero : movesList ⟨0, 0, 0, 0, 0, 0, 0⟩ = [] := by
  simp [movesList]

/-- C4: with a zero combined stress index and zero urban growth the land
transition model returns an empty transitions mapping and projected fractions
exactly equal to the baseline fractions; in particular, zero rainfall and
temperature deltas produce a zero combined stress index for any baseline. -/
theorem identity_scenario (f : LandCoverFractions) (sv : ClimateStress) (u area : Rat)
    (hcs : sv.combined_stress_index = 0) (hu : u = 0) (hsum : sumF f = 1) :
    (computeTransitions f sv u area).transitions = [] ∧
    (computeTransitions f sv u area).projected_fractions = f ∧
    (∀ b : BaselineSnapshot, (computeStress b 0 0).combined_stress_index = 0) := by
  have hm := computeMoves_zero f sv.combined_stress_index u hcs hu
  refine ⟨?_, ?_, ?_⟩
  · simp only [computeTransitions, hm, movesList_zero]
  · simp only [computeTransitions, hm, applyMoves_zero, renormalize_sum_one f hsum]
  · intro b
    simp [computeStress, clamp01]

/-- Witness for C4 at the synthetic baseline profile with an all-zero stress
vector. -/
theorem identity_scenario_witness :
    (computeTransitions syntheticProfile ⟨0, 0, 0, 0⟩ 0 5).transitions = [] ∧
    (computeTransitions syntheticProfile ⟨0, 0, 0, 0⟩ 0 5).projected_fractions =
      syntheticProfile ∧
    (∀ b : BaselineSnapshot, (computeStress b 0 0).combined_stress_index = 0) :=
  identity_scenario syntheticProfile ⟨0, 0, 0, 0⟩ 0 5 rfl rfl
    (by norm_num [sumF, syntheticProfile])

theorem computeMoves_bounds (f : LandCoverFractions) (cs u : Rat) (hf : NonnegF f) :
    0 ≤ (computeMoves f cs u).tShrub ∧
    0 ≤ (computeMoves f cs u).tGrass ∧
    0 ≤ (computeMoves f cs u).cBare ∧
    0 ≤ (computeMoves f cs u).cGrass ∧
    0 ≤ (computeMoves f cs u).cUrban ∧
    0 ≤ (computeMoves f cs u).gUrban ∧
    0 ≤ (computeMoves f cs u).tUrban ∧
    (computeMoves f cs u).cBare + (computeMoves f cs u).cGrass +
      (computeMoves f cs u).cUrban ≤ f.crops ∧
    (computeMoves f cs u).tShrub + (computeMoves f cs u).tGrass +
      (computeMoves f cs u).tUrban ≤ f.trees ∧
    (computeMoves f cs u).gUrban ≤ f.grass + (computeMoves f cs u).tGrass +
      (computeMoves f cs u).cGrass := by
  obtain ⟨hc, ht, hg, hs4, hb, hu6, hw⟩ := hf
  simp only [computeMoves]
  set t1 := clampTake f.trees (f.trees * (3/20) * cs) with ht1
  set t2 := clampTake (f.trees - t1) ((f.trees - t1) * (1/10) * cs) with ht2
  set b1 := clampTake f.crops (f.crops * (1/10) * cs) with hb1
  set b2 := clampTake (f.crops - b1) ((f.crops - b1) * (1/20) * cs) with hb2
  set dm := max 0 (u / 100 * sumF f) with hdm
  set u1 := clampTake (f.crops - b1 - b2) dm with hu1
  set g1 := clampTake (f.grass + t2 + b2) (dm - u1) with hg1
  set u3 := clampTake (f.trees - t1 - t2) (dm - u1 - g1) with hu3
  have k1 : 0 ≤ t1 := by rw [ht1]; exact clampTake_nonneg _ _
  have k2 : t1 ≤ f.trees := by rw [ht1]; exact clampTake_le _ _ ht
  have k3 : 0 ≤ t2 := by rw [ht2]; exact clampTake_nonneg _ _
  have k4 : t2 ≤ f.trees - t1 := by rw [ht2]; exact clampTake_le _ _ (by linarith)
  have k5 : 0 ≤ b1 := by rw [hb1]; exact clampTake_nonneg _ _
  have k6 : b1 ≤ f.crops := by rw [hb1]; exact clampTake_le _ _ hc
  have k7 : 0 ≤ b2 := by rw [hb2]; exact clampTake_nonneg _ _
  have k8 : b2 ≤ f.crops - b1 := by rw [hb2]; exact clampTake_le _ _ (by linarith)
  have k9 : 0 ≤ u1 := by rw [hu1]; exact clampTake_nonneg _ _
  have k10 : u1 ≤ f.crops - b1 - b2 := by rw [hu1]; exact clampTake_le _ _ (by linarith)
  have k11 : 0 ≤ g1 := by rw [hg1]; exact clampTake_nonneg _ _
  have k12 : g1 ≤ f.grass + t2 + b2 := by rw [hg1]; exact clampTake_le _ _ (by linarith)
  have k13 : 0 ≤ u3 := by rw [hu3]; exact clampTake_nonneg _ _
  have k14 : u3 ≤ f.trees - t1 - t2 := by rw [hu3]; exact clampTake_le _ _ (by linarith)
  refine ⟨k1, k3, k5, k7, k9, k11, k13, by linarith, by linarith, by linarith⟩

theorem sumF_applyMoves (f : LandCoverFractions) (m : TransitionMoves) :
    sumF (applyMoves f m) = sumF f := by
  unfold sumF applyMoves
  ring

theorem renormalize_sum_eq_one (g : LandCoverFractions) (h : 0 < sumF g) :
    sumF (renormalize g) = 1 := by
  have hs : sumF g ≠ 0 := ne_of_gt h
  unfold renormalize
  rw [if_neg hs]
  show g.crops / sumF g + g.trees / sumF g + g.grass / sumF g + g.shrub / sumF g +
    g.bare / sumF g + g.urban / sumF g + g.water / sumF g = 1
  field_simp
  unfold sumF
  ring

theorem renormalize_nonneg (g : LandCoverFractions) (h : 0 ≤ sumF g)
    (hn : NonnegF g) : NonnegF (renormalize g) := by
  obtain ⟨n1, n2, n3, n4, n5, n6, n7⟩ := hn
  simp only [renormalize]
  split_ifs with h0
  · exact ⟨n1, n2, n3, n4, n5, n6, n7⟩
  · exact ⟨div_nonneg n1 h, div_nonneg n2 h, div_nonneg n3 h, div_nonneg n4 h,
      div_nonneg n5 h, div_nonneg n6 h, div_nonneg n7 h⟩

/-- C5: for every input to the land transition model with nonnegative
baseline fractions of positive total, the projected fractions sum exactly to
1 (hence within any tolerance) and every projected fraction is
nonnegative. -/
theorem fraction_conservation (f : LandCoverFractions) (sv : ClimateStress)
    (u area : Rat) (hf : NonnegF f) (hs : 0 < sumF f) :
    sumF (computeTransitions f sv u area).projected_fractions = 1 ∧
    NonnegF (computeTransitions f sv u area).projected_fractions := by
  obtain ⟨m1, m2, m3, m4, m5, m6, m7, mc, mt, mg⟩ :=
    computeMoves_bounds f sv.combined_stress_index u hf
  obtain ⟨hc, ht, hg, hs4, hb, hu6, hw⟩ := hf
  set m := computeMoves f sv.combined_stress_index u with hm
  have hnn : NonnegF (applyMoves f m) := by
    simp only [NonnegF, applyMoves]
    refine ⟨by linarith, by linarith, by linarith, by linarith, by linarith,
      by linarith, by linarith⟩
  have hsum : sumF (applyMoves f m) = sumF f := sumF_applyMoves f m
  have hpos : 0 < sumF (applyMoves f m) := by rw [hsum]; exact hs
  constructor
  · show sumF (renormalize (applyMoves f m)) = 1
    exact renormalize_sum_eq_one _ hpos
  · show NonnegF (renormalize (applyMoves f m))
    exact renormalize_nonneg _ (le_of_lt hpos) hnn

/-- Witness for C5 at a concrete unnormalized fraction table and stress
vector. -/
theorem fraction_conservation_witness :
    sumF (computeTransitions ⟨1/3, 1/5, 1/7, 1/11, 1/13, 1/17, 1/100⟩
      ⟨3/4, 1, 1/2, 1/2⟩ 55 1000).projected_fractions = 1 ∧
    NonnegF (computeTransitions ⟨1/3, 1/5, 1/7, 1/11, 1/13, 1/17, 1/100⟩
      ⟨3/4, 1, 1/2, 1/2⟩ 55 1000).projected_fractions :=
  fraction_conservation ⟨1/3, 1/5, 1/7, 1/11, 1/13, 1/17, 1/100⟩
    ⟨3/4, 1, 1/2, 1/2⟩ 55 1000
    (by norm_num [NonnegF]) (by norm_num [sumF])





/-- Insert a list of scenarios into the cache in order, valuing each key by
`val`. -/
def putList (val : ScenarioKey → SimulationResponse) (ks : List ScenarioKey)
    (c : Cache) : Cache :=
  ks.foldl (fun acc k => cachePut k (val k) acc) c

theorem eraseP_fresh (k : ScenarioKey) (c : Cache) (h : k ∉ keysOf c) :
    List.eraseP (fun e => decide (e.1 = k)) c = c := by
  apply List.eraseP_of_forall_not
  intro e he
  simp only [decide_eq_true_eq]
  intro heq
  exact h (heq ▸ List.mem_map_of_mem (fun e => e.1) he)

theorem cachePut_fresh_lt (k : ScenarioKey) (v : SimulationResponse) (c : Cache)
    (hk : k ∉ keysOf c) (hlen : List.length c < CACHE_MAX_SIZE) :
    cachePut k v c = (k, v) :: c := by
  simp only [cachePut, eraseP_fresh k c hk, if_neg (Nat.not_le.mpr hlen)]

theorem cachePut_fresh_full (k : ScenarioKey) (v : SimulationResponse) (c : Cache)
    (hk : k ∉ keysOf c) (hlen : List.length c = CACHE_MAX_SIZE) :
    cachePut k v c = (k, v) :: c.dropLast := by
  simp only [cachePut, eraseP_fresh k c hk, if_pos (Nat.le_of_eq hlen.symm)]

theorem putList_fresh (val : ScenarioKey → SimulationResponse)
    (ks : List ScenarioKey) (c : Cache) (hnd : ks.Nodup)
    (hfresh : ∀ k ∈ ks, k ∉ keysOf c)
    (hlen : List.length c + ks.length ≤ CACHE_MAX_SIZE) :
    putList val ks c = (ks.map (fun k => (k, val k))).reverse ++ c := by
  induction ks generalizing c with
  | nil => simp [putList]
  | cons k ks ih =>
    have hk : k ∉ keysOf c := hfresh k (List.mem_cons_self k ks)
    have hlt : List.length c < CACHE_MAX_SIZE := by
      simp only [List.length_cons, CACHE_MAX_SIZE] at hlen ⊢
      omega
    simp only [putList, List.foldl_cons]
    rw [cachePut_fresh_lt k (val k) c hk hlt]
    have hrec := ih ((k, val k) :: c) (List.Nodup.of_cons hnd) ?fresh ?len
    case fresh =>
      intro k2 hk2
      simp only [keysOf, List.map_cons, List.mem_cons]
      rintro (rfl | hmem)
      · exact (List.nodup_cons.1 hnd).1 hk2
      · exact hfresh k2 (List.mem_cons_of_mem k hk2) hmem
    case len =>
      simp only [List.length_cons, CACHE_MAX_SIZE] at hlen ⊢
      omega
    rw [show (ks.foldl (fun acc k2 => cachePut k2 (val k2) acc) ((k, val k) :: c)) =
        putList val ks ((k, val k) :: c) from rfl]
    rw [hrec]
    simp [List.append_assoc]

theorem cacheFind_none (k : ScenarioKey) (c : Cache) (h : ∀ e ∈ c, e.1 ≠ k) :
    cacheFind k c = none := by
  unfold cacheFind
  rw [List.find?_eq_none.2 (by intro e he; simpa using h e he)]
  rfl

theorem cacheFind_ne_none (k : ScenarioKey) (c : Cache)
    (e : ScenarioKey × SimulationResponse)
    (he : e ∈ c) (hk : e.1 = k) : cacheFind k c ≠ none := by
  unfold cacheFind
  have hs : (List.find? (fun e => decide (e.1 = k)) c).isSome :=
    List.find?_isSome.2 ⟨e, he, by simp [hk]⟩
  cases hfind : List.find? (fun e => decide (e.1 = k)) c with
  | none => rw [hfind] at hs; simp at hs
  | some e2 => simp

theorem cachePut_bounded (k : ScenarioKey) (v : SimulationResponse) (c : Cache)
    (h : entriesCount c ≤ CACHE_MAX_SIZE) :
    entriesCount (cachePut k v c) ≤ CACHE_MAX_SIZE := by
  unfold entriesCount at h ⊢
  have hsub : (List.eraseP (fun e => decide (e.1 = k)) c).length ≤ c.length :=
    (List.eraseP_sublist c).length_le
  simp only [cachePut]
  generalize hgen : List.eraseP (fun e => decide (e.1 = k)) c = c1 at hsub ⊢
  by_cases hfull : CACHE_MAX_SIZE ≤ c1.length
  · rw [if_pos hfull]
    simp only [List.length_cons, List.length_dropLast]
    simp only [CACHE_MAX_SIZE] at h hfull ⊢
    omega
  · rw [if_neg hfull]
    simp only [List.length_cons]
    simp only [CACHE_MAX_SIZE] at h hfull ⊢
    omega

theorem keysOf_pairs (val : ScenarioKey → SimulationResponse) (ks : List ScenarioKey) :
    keysOf ((ks.map (fun k => (k, val k))).reverse) = ks.reverse := by
  unfold keysOf
  rw [← List.map_reverse, List.map_map]
  simp [Function.comp_def]

/-- C7: the scenario cache is bounded by `CACHE_MAX_SIZE` (an insert never
grows it past capacity), and inserting `CACHE_MAX_SIZE + 1` distinct
scenarios into an empty cache leaves exactly `CACHE_MAX_SIZE` entries,
evicting exactly the least-recently-used one (the first inserted) while every
other scenario remains; recency is by last access, not insertion: touching
the oldest entry with a hit just before the final insert makes the eviction
fall on the second-oldest entry instead, and the touched entry survives. -/
theorem cache_lru_eviction (val : ScenarioKey → SimulationResponse)
    (k0 klast : ScenarioKey) (mid : List ScenarioKey)
    (hnd : (k0 :: (mid ++ [klast])).Nodup)
    (hmid : mid.length = CACHE_MAX_SIZE - 1) :
    (∀ (k : ScenarioKey) (v : SimulationResponse) (c : Cache),
      entriesCount c ≤ CACHE_MAX_SIZE →
      entriesCount (cachePut k v c) ≤ CACHE_MAX_SIZE) ∧
    entriesCount (putList val (k0 :: (mid ++ [klast])) []) = CACHE_MAX_SIZE ∧
    cacheFind k0 (putList val (k0 :: (mid ++ [klast])) []) = none ∧
    (∀ k ∈ mid ++ [klast],
      cacheFind k (putList val (k0 :: (mid ++ [klast])) []) ≠ none) ∧
    cacheFind k0 (cachePut klast (val klast)
      (cacheTouch k0 (putList val (k0 :: mid) []))) ≠ none ∧
    (∀ k1 ∈ mid.head?, cacheFind k1 (cachePut klast (val klast)
      (cacheTouch k0 (putList val (k0 :: mid) []))) = none) := by
  obtain ⟨hk0notin, hndtail⟩ := List.nodup_cons.1 hnd
  obtain ⟨hmidnd, -, hdisj⟩ := List.nodup_append.1 hndtail
  have hk0mid : k0 ∉ mid := fun h => hk0notin (List.mem_append_left _ h)
  have hk0klast : k0 ≠ klast := by
    intro h
    exact hk0notin (List.mem_append_right _ (h ▸ List.mem_singleton_self k0))
  have hklastmid : klast ∉ mid := by
    intro h
    exact hdisj h (List.mem_singleton_self klast)
  have hndfirst : (k0 :: mid).Nodup :=
    List.Nodup.sublist
      (List.Sublist.cons₂ k0 (List.sublist_append_left mid [klast])) hnd
  have hfirst : putList val (k0 :: mid) [] =
      List.reverse (mid.map (fun k => (k, val k))) ++ [(k0, val k0)] := by
    rw [putList_fresh val (k0 :: mid) [] hndfirst
      (by intro k _; simp [keysOf])
      (by simp only [List.length_nil, List.length_cons, CACHE_MAX_SIZE,
            hmid, Nat.zero_add]; simp [CACHE_MAX_SIZE] at hmid; omega)]
    simp [List.reverse_cons]
  have hlen100 : List.length (putList val (k0 :: mid) []) = CACHE_MAX_SIZE := by
    rw [hfirst]
    simp only [List.length_append, List.length_reverse, List.length_map,
      List.length_cons, List.length_nil]
    simp only [CACHE_MAX_SIZE] at hmid ⊢
    omega
  have hkeys100 : keysOf (putList val (k0 :: mid) []) = mid.reverse ++ [k0] := by
    rw [hfirst]
    unfold keysOf
    rw [List.map_append]
    rw [show List.map (fun e => e.1) (List.reverse (mid.map (fun k => (k, val k)))) =
        keysOf (List.reverse (mid.map (fun k => (k, val k)))) from rfl]
    rw [keysOf_pairs]
    rfl
  have hklastfresh : klast ∉ keysOf (putList val (k0 :: mid) []) := by
    rw [hkeys100]
    simp only [List.mem_append, List.mem_reverse, List.mem_singleton]
    rintro (h | h)
    · exact hklastmid h
    · exact hk0klast h.symm
  have hsplit : putList val (k0 :: (mid ++ [klast])) [] =
      cachePut klast (val klast) (putList val (k0 :: mid) []) := by
    show putList val ((k0 :: mid) ++ [klast]) [] = _
    simp [putList, List.foldl_append]
  have hc101 : putList val (k0 :: (mid ++ [klast])) [] =
      (klast, val klast) :: List.reverse (mid.map (fun k => (k, val k))) := by
    rw [hsplit, cachePut_fresh_full _ _ _ hklastfresh hlen100, hfirst]
    congr 1
    simp
  have hnomatch : ∀ e ∈ List.reverse (mid.map (fun k => (k, val k))),
      ¬ (decide (e.1 = k0) = true) := by
    intro e he
    simp only [decide_eq_true_eq]
    intro heq
    rw [List.mem_reverse] at he
    obtain ⟨k, hk, rfl⟩ := List.mem_map.1 he
    exact hk0mid (heq ▸ hk)
  have htouch : cacheTouch k0 (putList val (k0 :: mid) []) =
      (k0, val k0) :: List.reverse (mid.map (fun k => (k, val k))) := by
    rw [hfirst]
    unfold cacheTouch cacheGet
    have hleft : List.find? (fun e => decide (e.1 = k0))
        (List.reverse (mid.map (fun k => (k, val k)))) = none :=
      List.find?_eq_none.2 hnomatch
    rw [List.find?_append, hleft, Option.none_or]
    rw [show List.find? (fun e => decide (e.1 = k0)) [(k0, val k0)] =
        some (k0, val k0) by simp]
    rw [List.eraseP_append_right _ hnomatch]
    rw [List.eraseP_cons_of_pos (by simp)]
    simp
  have htouchlen : List.length
      ((k0, val k0) :: List.reverse (mid.map (fun k => (k, val k)))) =
      CACHE_MAX_SIZE := by
    simp only [List.length_cons, List.length_reverse, List.length_map]
    simp only [CACHE_MAX_SIZE] at hmid ⊢
    omega
  have hklastfresh2 : klast ∉ keysOf
      ((k0, val k0) :: List.reverse (mid.map (fun k => (k, val k)))) := by
    unfold keysOf
    rw [List.map_cons]
    rw [show List.map (fun e => e.1) (List.reverse (mid.map (fun k => (k, val k)))) =
        keysOf (List.reverse (mid.map (fun k => (k, val k)))) from rfl]
    rw [keysOf_pairs]
    simp only [List.mem_cons, List.mem_reverse]
    rintro (h | h)
    · exact hk0klast h.symm
    · exact hklastmid h
  have hfinalT : cachePut klast (val klast)
      (cacheTouch k0 (putList val (k0 :: mid) [])) =
      (klast, val klast) ::
        ((k0, val k0) :: List.reverse (mid.map (fun k => (k, val k)))).dropLast := by
    rw [htouch, cachePut_fresh_full _ _ _ hklastfresh2 (by rw [htouchlen])]
  have hmidne : mid ≠ [] := by
    intro h
    rw [h] at hmid
    simp [CACHE_MAX_SIZE] at hmid
  refine ⟨cachePut_bounded, ?_, ?_, ?_, ?_, ?_⟩
  · rw [hc101]
    unfold entriesCount
    simp only [List.length_cons, List.length_reverse, List.length_map]
    simp only [CACHE_MAX_SIZE] at hmid ⊢
    omega
  · apply cacheFind_none
    intro e he
    rw [hc101] at he
    rcases List.mem_cons.1 he with rfl | he2
    · exact fun h => hk0klast h.symm
    · rw [List.mem_reverse] at he2
      obtain ⟨k, hk, rfl⟩ := List.mem_map.1 he2
      exact fun h => hk0mid (h ▸ hk)
  · intro k hk
    rcases List.mem_append.1 hk with hkmid | hklast
    · refine cacheFind_ne_none k _ (k, val k) ?_ rfl
      rw [hc101]
      exact List.mem_cons_of_mem _
        (List.mem_reverse.2 (List.mem_map_of_mem (fun k => (k, val k)) hkmid))
    · rw [List.mem_singleton.1 hklast, hc101]
      exact cacheFind_ne_none klast _ (klast, val klast) (List.mem_cons_self _ _) rfl
  · rw [hfinalT]
    have hrevne : List.reverse (mid.map (fun k => (k, val k))) ≠ [] := by
      simp [hmidne]
    rw [List.dropLast_cons_of_ne_nil hrevne]
    exact cacheFind_ne_none k0 _ (k0, val k0)
      (List.mem_cons_of_mem _ (List.mem_cons_self _ _)) rfl
  · intro k1 hk1
    cases mid with
    | nil => simp at hk1
    | cons a rest =>
      have hk1a : a = k1 := by simpa using hk1
      subst hk1a
      rw [hfinalT]
      apply cacheFind_none
      intro e he
      have hrw : ((k0, val k0) ::
          List.reverse ((a :: rest).map (fun k => (k, val k)))).dropLast =
          (k0, val k0) :: List.reverse (rest.map (fun k => (k, val k))) := by
        rw [List.map_cons, List.reverse_cons]
        rw [List.dropLast_cons_of_ne_nil (by simp)]
        simp
      rw [hrw] at he
      rcases List.mem_cons.1 he with rfl | he2
      · exact fun h => hklastmid (h ▸ List.mem_cons_self a rest)
      · rcases List.mem_cons.1 he2 with rfl | he3
        · exact fun h => hk0mid (h ▸ List.mem_cons_self a rest)
        · rw [List.mem_reverse] at he3
          obtain ⟨k, hk, rfl⟩ := List.mem_map.1 he3
          intro h
          exact (List.nodup_cons.1 hmidnd).1 (h ▸ hk)

/-- Distinct scenario keys indexed by target year, for concrete cache runs. -/
def mkKey (n : Nat) : ScenarioKey := ⟨"test", 2025 + n, 0, 0, 0⟩

/-- The 99 middle keys of the concrete eviction run. -/
def wMid : List ScenarioKey := (List.range 99).map (fun i => mkKey (i + 1))

/-- Witness for C7: a concrete run with 101 distinct scenario keys. -/
theorem cache_lru_eviction_witness :
    (∀ (k : ScenarioKey) (v : SimulationResponse) (c : Cache),
      entriesCount c ≤ CACHE_MAX_SIZE →
      entriesCount (cachePut k v c) ≤ CACHE_MAX_SIZE) ∧
    entriesCount (putList (fun _ => dummyResponse)
      (mkKey 0 :: (wMid ++ [mkKey 100])) []) = CACHE_MAX_SIZE ∧
    cacheFind (mkKey 0) (putList (fun _ => dummyResponse)
      (mkKey 0 :: (wMid ++ [mkKey 100])) []) = none ∧
    (∀ k ∈ wMid ++ [mkKey 100],
      cacheFind k (putList (fun _ => dummyResponse)
        (mkKey 0 :: (wMid ++ [mkKey 100])) []) ≠ none) ∧
    cacheFind (mkKey 0) (cachePut (mkKey 100) dummyResponse
      (cacheTouch (mkKey 0) (putList (fun _ => dummyResponse)
        (mkKey 0 :: wMid) []))) ≠ none ∧
    (∀ k1 ∈ wMid.head?, cacheFind k1 (cachePut (mkKey 100) dummyResponse
      (cacheTouch (mkKey 0) (putList (fun _ => dummyResponse)
        (mkKey 0 :: wMid) []))) = none) := by
  have hinj : Function.Injective mkKey := by
    intro a b h
    have h2 := congrArg ScenarioKey.target_year h
    simp only [mkKey] at h2
    omega
  apply cache_lru_eviction (fun _ => dummyResponse) (mkKey 0) (mkKey 100) wMid
  · have hrw : (mkKey 0 :: (wMid ++ [mkKey 100])) =
        List.map mkKey (0 :: ((List.range 99).map (fun i => i + 1) ++ [100])) := by
      simp [wMid, List.map_map, Function.comp_def]
    rw [hrw]
    exact List.Nodup.map hinj (by decide)
  · simp [wMid, CACHE_MAX_SIZE]

theorem catalog_findRegion_id : ∀ r ∈ regionCatalog, findRegion r.id = some r := by
  intro r hr
  fin_cases hr <;> rfl

theorem findRegion_mem (s : String) (r : Region) (h : findRegion s = some r) :
    r ∈ regionCatalog :=
  List.mem_of_find?_eq_some h

theorem payload_fresh_time (prov : Provider) (r : Region) (k : ScenarioKey)
    (a b a2 b2 : Rat) :
    payload (freshResult prov r k a b) = payload (freshResult prov r k a2 b2) := rfl

theorem dataSource_fresh_time (prov : Provider) (r : Region) (k : ScenarioKey)
    (a b a2 b2 : Rat) :
    (freshResult prov r k a b).data_source = (freshResult prov r k a2 b2).data_source := rfl

theorem payload_set_cached (res : SimulationResponse) (t : Rat) :
    payload { res with stats := { res.stats with
      cached := true, computation_time_seconds := t } } = payload res := rfl

/-- Every entry of a cache state agrees, outside the volatile fields, with a
fresh computation for its key against the provider. -/
def CacheGood (prov : Provider) (c : Cache) : Prop :=
  ∀ e ∈ c, ∃ r : Region, findRegion e.1.region_id = some r ∧
    payload e.2 = payload (freshResult prov r e.1 0 0) ∧
    e.2.data_source = (freshResult prov r e.1 0 0).data_source

theorem cacheGet_subset (k : ScenarioKey) (c : Cache) :
    ∀ e ∈ (cacheGet k c).2, e ∈ c := by
  intro e he
  unfold cacheGet at he
  cases hfind : List.find? (fun e => decide (e.1 = k)) c with
  | none => rw [hfind] at he; exact he
  | some e0 =>
    rw [hfind] at he
    rcases List.mem_cons.1 he with rfl | he2
    · exact List.mem_of_find?_eq_some hfind
    · exact (List.eraseP_sublist c).subset he2

theorem cacheGet_some_mem (k : ScenarioKey) (c : Cache) (res : SimulationResponse)
    (c2 : Cache) (h : cacheGet k c = (some res, c2)) :
    ∃ e ∈ c, e.1 = k ∧ e.2 = res := by
  unfold cacheGet at h
  cases hfind : List.find? (fun e => decide (e.1 = k)) c with
  | none => rw [hfind] at h; simp at h
  | some e0 =>
    rw [hfind] at h
    have h1 : some e0.2 = some res := congrArg Prod.fst h
    refine ⟨e0, List.mem_of_find?_eq_some hfind, ?_, by simpa using h1⟩
    have := List.find?_some hfind
    simpa using this

theorem cachePut_subset (k : ScenarioKey) (v : SimulationResponse) (c : Cache) :
    ∀ e ∈ cachePut k v c, e = (k, v) ∨ e ∈ c := by
  intro e he
  simp only [cachePut] at he
  rcases List.mem_cons.1 he with rfl | he2
  · exact Or.inl rfl
  · right
    split at he2
    · exact (List.eraseP_sublist c).subset ((List.dropLast_sublist _).subset he2)
    · exact (List.eraseP_sublist c).subset he2

theorem cacheGood_step (prov : Provider) (req : SimulationRequest) (c : Cache)
    (tGen tComp : Rat) (res : SimulationResponse) (c2 : Cache)
    (hg : CacheGood prov c) (h : simulate prov req c tGen tComp = .ok (res, c2)) :
    CacheGood prov c2 := by
  unfold simulate at h
  cases hr : findRegion req.region with
  | none => rw [hr] at h; simp at h
  | some r =>
    rw [hr] at h
    cases hv : validateParams req with
    | some e => rw [hv] at h; simp at h
    | none =>
      rw [hv] at h
      simp only at h
      set k : ScenarioKey :=
        ⟨r.id, req.year, req.rainfall_delta, req.temperature_delta, req.urban_growth⟩
        with hk
      cases hget : cacheGet k c with
      | mk o c1 =>
        cases o with
        | some res0 =>
          rw [hget] at h
          simp only [Except.ok.injEq, Prod.mk.injEq] at h
          obtain ⟨-, rfl⟩ := h
          intro e he
          refine hg e (cacheGet_subset k c e ?_)
          rw [hget]
          exact he
        | none =>
          rw [hget] at h
          simp only [Except.ok.injEq, Prod.mk.injEq] at h
          obtain ⟨rfl, rfl⟩ := h
          intro e he
          rcases cachePut_subset k _ c e he with rfl | he2
          · refine ⟨r, ?_, ?_, ?_⟩
            · show findRegion k.region_id = some r
              have hrmem : r ∈ regionCatalog := findRegion_mem req.region r hr
              rw [show k.region_id = r.id from rfl]
              exact catalog_findRegion_id r hrmem
            · exact payload_fresh_time prov r k tGen tComp 0 0
            · exact dataSource_fresh_time prov r k tGen tComp 0 0
          · exact hg e he2

theorem reachable_cacheGood (prov : Provider) (c : Cache) (h : Reachable prov c) :
    CacheGood prov c := by
  induction h with
  | empty => intro e he; simp at he
  | step req c tGen tComp res c2 hreach heq ih =>
    exact cacheGood_step prov req c tGen tComp res c2 ih heq

/-- The outcome any run of the engine must agree with outside the volatile
fields: the validation error, or the fresh computation's payload. -/
def canonicalOutcome (prov : Provider) (req : SimulationRequest) :
    Except SimError Payload :=
  match findRegion req.region with
  | none => .error (.unknownRegion req.region)
  | some r =>
    match validateParams req with
    | some e => .error e
    | none => .ok (payload (freshResult prov r
        ⟨r.id, req.year, req.rainfall_delta, req.temperature_delta, req.urban_growth⟩
        0 0))

theorem simulate_payload_canonical (prov : Provider) (req : SimulationRequest)
    (c : Cache) (tGen tComp : Rat) (hg : CacheGood prov c) :
    simPayload (simulate prov req c tGen tComp) = canonicalOutcome prov req := by
  unfold simulate canonicalOutcome simPayload
  cases hr : findRegion req.region with
  | none => rfl
  | some r =>
    cases hv : validateParams req with
    | some e => rfl
    | none =>
      simp only
      set k : ScenarioKey :=
        ⟨r.id, req.year, req.rainfall_delta, req.temperature_delta, req.urban_growth⟩
        with hk
      cases hget : cacheGet k c with
      | mk o c1 =>
        cases o with
        | some res0 =>
          simp only [Except.map]
          rw [payload_set_cached res0 tComp]
          obtain ⟨e, he, hek, herez⟩ := cacheGet_some_mem k c res0 c1 hget
          obtain ⟨r2, hr2, hpay, -⟩ := hg e he
          rw [← herez, hpay, hek] at *
          -- identify r2 with r
          have hrmem : r ∈ regionCatalog := findRegion_mem req.region r hr
          have hrr : findRegion k.region_id = some r := by
            rw [show k.region_id = r.id from rfl]
            exact catalog_findRegion_id r hrmem
          rw [hek] at hr2
          rw [hrr] at hr2
          obtain rfl : r2 = r := by injection hr2 with h2; exact h2.symm
          rw [hpay]
        | none =>
          simp only [Except.map]
          rw [payload_fresh_time prov r k tGen tComp 0 0]

/-- C1: determinism of `simulate` — for a fixed provider and any two cache
states reachable by engine runs (any call order, any process restart point),
two calls with the same valid parameters agree on the scenario id, the
results payload, and every stats field except `cached` and
`computation_time_seconds` (and agree on the error when the parameters are
invalid). -/
theorem simulate_deterministic (prov : Provider) (req : SimulationRequest)
    (c1 c2 : Cache) (t1 t2 t3 t4 : Rat)
    (h1 : Reachable prov c1) (h2 : Reachable prov c2) :
    simPayload (simulate prov req c1 t1 t2) =
    simPayload (simulate prov req c2 t3 t4) := by
  rw [simulate_payload_canonical prov req c1 t1 t2 (reachable_cacheGood prov c1 h1),
    simulate_payload_canonical prov req c2 t3 t4 (reachable_cacheGood prov c2 h2)]

/-- Witness for C1: the spec's test scenario, run at two different clock
readings. -/
theorem simulate_deterministic_witness :
    simPayload (simulate syntheticProvider ⟨"test", 2035, -15, 12/10, 30⟩ [] 0 0) =
    simPayload (simulate syntheticProvider ⟨"test", 2035, -15, 12/10, 30⟩ [] 1 2) :=
  simulate_deterministic syntheticProvider ⟨"test", 2035, -15, 12/10, 30⟩ [] [] 0 0 1 2
    Reachable.empty Reachable.empty


/-- A numeric field of the request lies outside its closed range (the ranges
of the claim: year 2025-2100, rainfall -50..30, temperature -2..5, urban
growth 0..100). -/
def OutOfRange (req : SimulationRequest) : Prop :=
  (req.year : Rat) < 2025 ∨ 2100 < (req.year : Rat) ∨
  req.rainfall_delta < -50 ∨ 30 < req.rainfall_delta ∨
  req.temperature_delta < -2 ∨ 5 < req.temperature_delta ∨
  req.urban_growth < 0 ∨ 100 < req.urban_growth

theorem validateParams_some_of_outOfRange (req : SimulationRequest)
    (ho : OutOfRange req) :
    ∃ f v lo hi, validateParams req = some (.invalidParameter f v lo hi) := by
  unfold validateParams
  simp only [PARAMETER_CONSTRAINTS]
  split_ifs with h1 h2 h3 h4
  · exfalso
    rcases ho with h | h | h | h | h | h | h | h <;> first
      | exact absurd h (not_lt.2 h1.1)
      | exact absurd h (not_lt.2 h1.2)
      | exact absurd h (not_lt.2 h2.1)
      | exact absurd h (not_lt.2 h2.2)
      | exact absurd h (not_lt.2 h3.1)
      | exact absurd h (not_lt.2 h3.2)
      | exact absurd h (not_lt.2 h4.1)
      | exact absurd h (not_lt.2 h4.2)
  · exact ⟨_, _, _, _, rfl⟩
  · exact ⟨_, _, _, _, rfl⟩
  · exact ⟨_, _, _, _, rfl⟩
  · exact ⟨_, _, _, _, rfl⟩

/-- C3: for a known region, a request with any numeric field outside its
closed range makes `simulate` fail with `InvalidParameter`, with an outcome
that does not depend on the provider, the cache state, or the clock (the
validation precedes any baseline fetch and any cache lookup). -/
theorem range_validation_rejects (req : SimulationRequest) (r : Region)
    (hr : findRegion req.region = some r) (ho : OutOfRange req) :
    ∃ f v lo hi, ∀ (prov : Provider) (c : Cache) (t1 t2 : Rat),
      simulate prov req c t1 t2 = .error (.invalidParameter f v lo hi) := by
  obtain ⟨f, v, lo, hi, hval⟩ := validateParams_some_of_outOfRange req ho
  refine ⟨f, v, lo, hi, fun prov c t1 t2 => ?_⟩
  unfold simulate
  rw [hr, hval]

/-- Witness for C3: `year = 2101` and `rainfall_delta = -51` are rejected
with `InvalidParameter` whatever the provider, cache, or clock. -/
theorem range_validation_rejects_witness :
    (∃ f v lo hi, ∀ (prov : Provider) (c : Cache) (t1 t2 : Rat),
      simulate prov ⟨"test", 2101, 0, 0, 0⟩ c t1 t2 =
        .error (.invalidParameter f v lo hi)) ∧
    (∃ f v lo hi, ∀ (prov : Provider) (c : Cache) (t1 t2 : Rat),
      simulate prov ⟨"test", 2050, -51, 0, 0⟩ c t1 t2 =
        .error (.invalidParameter f v lo hi)) :=
  ⟨range_validation_rejects ⟨"test", 2101, 0, 0, 0⟩ _ rfl
      (by norm_num [OutOfRange]),
    range_validation_rejects ⟨"test", 2050, -51, 0, 0⟩ _ rfl
      (by norm_num [OutOfRange])⟩

/-- C6: for valid parameters `simulate` succeeds whatever the provider does
(the synthetic fallback never raises), and against a provider whose every
fetch fails with `DataUnavailable`, any reachable cache state still yields a
successful result with `data_source = mock`. -/
theorem fallback_never_fails (req : SimulationRequest) (r : Region)
    (hr : findRegion req.region = some r) (hv : validateParams req = none) :
    (∀ (prov : Provider) (c : Cache) (t1 t2 : Rat),
      ∃ res c2, simulate prov req c t1 t2 = .ok (res, c2)) ∧
    (∀ (c : Cache), Reachable failProvider c → ∀ t1 t2 : Rat,
      ∃ res c2, simulate failProvider req c t1 t2 = .ok (res, c2) ∧
        res.data_source = .mock) := by
  constructor
  · intro prov c t1 t2
    unfold simulate
    rw [hr, hv]
    simp only
    set k : ScenarioKey :=
      ⟨r.id, req.year, req.rainfall_delta, req.temperature_delta, req.urban_growth⟩
      with hk
    cases hget : cacheGet k c with
    | mk o c1 =>
      cases o with
      | some res0 => exact ⟨_, _, rfl⟩
      | none => exact ⟨_, _, rfl⟩
  · intro c hreach t1 t2
    have hg := reachable_cacheGood failProvider c hreach
    unfold simulate
    rw [hr, hv]
    simp only
    set k : ScenarioKey :=
      ⟨r.id, req.year, req.rainfall_delta, req.temperature_delta, req.urban_growth⟩
      with hk
    cases hget : cacheGet k c with
    | mk o c1 =>
      cases o with
      | some res0 =>
        refine ⟨_, _, rfl, ?_⟩
        obtain ⟨e, he, hek, herez⟩ := cacheGet_some_mem k c res0 c1 hget
        obtain ⟨r2, -, -, hds⟩ := hg e he
        show res0.data_source = DataSource.mock
        rw [← herez, hds]
        rfl
      | none =>
        refine ⟨_, _, rfl, ?_⟩
        show (freshResult failProvider r k t1 t2).data_source = DataSource.mock
        rfl

/-- Witness for C6: the spec's test scenario against the always-failing
provider, from a fresh cache, and success against the synthetic provider. -/
theorem fallback_never_fails_witness :
    (∃ res c2, simulate syntheticProvider ⟨"test", 2035, -15, 12/10, 30⟩ [] 0 0 =
      .ok (res, c2)) ∧
    (∃ res c2, simulate failProvider ⟨"test", 2035, -15, 12/10, 30⟩ [] 0 0 =
      .ok (res, c2) ∧ res.data_source = .mock) := by
  have h := fallback_never_fails ⟨"test", 2035, -15, 12/10, 30⟩
    ⟨"test", "test", ⟨3923/50, 2009/100, 3973/50, 2109/100⟩, "Test region"⟩
    rfl (by norm_num [validateParams, PARAMETER_CONSTRAINTS])
  exact ⟨h.1 syntheticProvider [] 0 0, h.2 [] Reachable.empty 0 0⟩


end FES
